import Mathlib

/-!
Verification of the Veraison endorsement-provisioning API client
(`provisioning/provisioning.go`) against its specification.

The Go code is shallowly embedded: the HTTP transport, the URL
parser/resolver and the JSON body decoder are external collaborators and
are modelled as oracles (plain functions supplied as parameters); the
control flow of `Run`, `pollForSubmissionCompletion`, `check`,
`sessionFromResponse`, `initClient` and `SetSubmitURI` is translated
statement by statement from the source.  `Run` additionally returns the
list of HTTP requests it issued, so that frame/effect properties
(exactly one DELETE, no request before validation, a single POST) can be
stated.
-/

namespace Provisioning

/-- SubmitSession models the
application/vnd.veraison.provisioning-session+json media type
(fields `status`, `expiry`, `failure-reason` of the Go struct). -/
structure SubmitSession where
  Status : String
  Expiry : String
  FailureReason : Option String
  deriving DecidableEq, Repr

/-- The session-record media type constant `sessionMediaType`. -/
def sessionMediaType : String := "application/vnd.veraison.provisioning-session+json"

/-- Status constant `common.APIStatusSuccess` (value per spec §3 and the tests). -/
def APIStatusSuccess : String := "success"

/-- Status constant `common.APIStatusFailed`. -/
def APIStatusFailed : String := "failed"

/-- Status constant `common.APIStatusProcessing`. -/
def APIStatusProcessing : String := "processing"

/-- Outcome of JSON-parsing a response body: either malformed (with the
parser's error message) or a well-formed object given as an association
list of string fields. -/
inductive JsonBody where
  | malformed (msg : String)
  | object (fields : List (String × String))
  deriving DecidableEq, Repr

/-- Last-wins lookup of a key in a JSON object's field list (Go's
encoding/json keeps the last duplicate). -/
def lookupLast (fields : List (String × String)) (key : String) : Option String :=
  fields.foldl (fun acc kv => if kv.1 = key then some kv.2 else acc) none

/-- Modelled from the spec: `common.DecodeJSONBody` (not under src/)
parses the response body as JSON into the Session Record structure,
ignoring unknown fields; absent fields are left at their zero values,
and a malformed body yields the parse error. -/
def decodeJSONBody : JsonBody → Except String SubmitSession
  | .malformed msg => .error msg
  | .object fields =>
      .ok { Status := (lookupLast fields "status").getD ""
            Expiry := (lookupLast fields "expiry").getD ""
            FailureReason := lookupLast fields "failure-reason" }

/-- An HTTP response as observed by the client: status code, status
line text, Content-Type header, ContentLength, the JSON-parse outcome
of the body, and the optional Location header. -/
structure HttpResponse where
  statusCode : Nat
  status : String
  contentType : String
  contentLength : Nat
  body : JsonBody
  location : Option String
  deriving DecidableEq, Repr

/-- Embedding of `sessionFromResponse`: reject an empty body, reject a
Content-Type other than the session media type, otherwise decode the
body, wrapping a decode failure. -/
def sessionFromResponse (res : HttpResponse) : Except String SubmitSession :=
  if res.contentLength = 0 then
    .error "empty body"
  else if res.contentType ≠ sessionMediaType then
    .error ("session resource with unexpected content type: \"" ++ res.contentType ++ "\"")
  else
    match decodeJSONBody res.body with
    | .error e => .error ("failure decoding session resource: " ++ e)
    | .ok j => .ok j

/-- Message built at the `failed` status branches of `Run` and the
poller: "submission failed", extended with the failure reason when
present. -/
def submissionFailedMsg (j : SubmitSession) : String :=
  match j.FailureReason with
  | some r => "submission failed: " ++ r
  | none => "submission failed"

/-- A `common.Client` as used by the core: the POST primitive (body,
content type, accept, URI), the GET primitive (URI, call number — the
call number indexes successive server states), and the DELETE
primitive. -/
structure Client where
  postResource : List Nat → String → String → String → Except String HttpResponse
  httpGet : String → Nat → Except String HttpResponse
  deleteResource : String → Except String Unit

/-- SubmitConfig holds the context of an endorsement submission API
session (the authenticator is opaque to the core and modelled as an
abstract optional token). -/
structure SubmitConfig where
  CACerts : List String := []
  Client : Option Client := none
  SubmitURI : String := ""
  Auth : Option Unit := none
  DeleteSession : Bool := false
  UseTLS : Bool := false
  IsInsecure : Bool := false

/-- Embedding of `SubmitConfig.check`: `none` means no error. -/
def check (cfg : SubmitConfig) : Option String :=
  if cfg.SubmitURI = "" then some "bad configuration: no API endpoint" else none

/-- A parsed URL; only the scheme is consulted by the client
(`u.Scheme == "https"` and `u.IsAbs()`); the remainder is opaque. -/
structure URL where
  scheme : String
  rest : String := ""
  deriving DecidableEq, Repr

/-- net/url's `URL.IsAbs`: a URL is absolute when it has a scheme. -/
def URL.isAbs (u : URL) : Bool := u.scheme ≠ ""

/-- Embedding of `SetSubmitURI`, parameterised by the `url.Parse`
oracle.  Returns the updated configuration together with the error (Go
mutates the receiver only on the success path). -/
def SetSubmitURI (parse : String → Except String URL) (cfg : SubmitConfig) (uri : String) :
    SubmitConfig × Option String :=
  match parse uri with
  | .error e => (cfg, some ("malformed URI: " ++ e))
  | .ok u =>
      if !u.isAbs then (cfg, some "uri is not absolute")
      else ({ cfg with UseTLS := u.scheme == "https", SubmitURI := uri }, none)

/-- Modelled from the spec: `common.ExtractLocation` (not under src/)
extracts the follow-up resource URI from the response's Location
header, resolved against the submit URI; a missing header fails (with
the message observed by the repository's tests), and resolution is an
oracle. -/
def extractLocation (resolve : String → String → Except String String)
    (res : HttpResponse) (base : String) : Except String String :=
  match res.location with
  | none => .error "no Location header found in response"
  | some loc => resolve loc base

/-- The process-wide environment of a `Run` call: the poll budget
`common.MaxAttempts`, the Location-resolution oracle, and the three
client constructors `common.NewClient`, `common.NewInsecureTLSClient`,
`common.NewTLSClient` (each a function of the authenticator; the TLS
constructor may fail when CA certificates cannot be loaded). -/
structure RunEnv where
  maxAttempts : Nat
  resolve : String → String → Except String String
  newClient : Option Unit → Client
  newInsecureTLSClient : Option Unit → Client
  newTLSClient : Option Unit → List String → Except String Client

/-- Embedding of `initClient`: reuse the configured client when
present, otherwise construct one according to the TLS flags.  It
returns the resolved client; in Go the new client is stored in `Run`'s
by-value copy of the configuration and threaded through the call. -/
def initClient (env : RunEnv) (cfg : SubmitConfig) : Except String Client :=
  match cfg.Client with
  | some c => .ok c
  | none =>
      if !cfg.UseTLS then .ok (env.newClient cfg.Auth)
      else if cfg.IsInsecure then .ok (env.newInsecureTLSClient cfg.Auth)
      else env.newTLSClient cfg.Auth cfg.CACerts

/-- One HTTP request issued by the client, for the effect trace. -/
inductive Request where
  | post (uri : String)
  | get (uri : String)
  | delete (uri : String)
  deriving DecidableEq, Repr

/-- Loop of `pollForSubmissionCompletion`:
`for attempt := 1; attempt < MaxAttempts; attempt++`.  `get k` is the
response to the k-th GET of the session URI (k counted from 0); the
result carries the (record, error) pair and the total number of GETs
issued.  `time.Sleep(common.PollPeriod)` has no observable effect in
the model. -/
def pollGo (get : Nat → Except String HttpResponse) (maxAttempts : Nat)
    (attempt k : Nat) : (Option SubmitSession × Option String) × Nat :=
  if _h : attempt < maxAttempts then
    match get k with
    | .error e => ((none, some ("session resource fetch failed: " ++ e)), k + 1)
    | .ok res =>
        if res.statusCode ≠ 200 then
          ((none, some ("session resource fetch returned an unexpected status: " ++ res.status)), k + 1)
        else
          match sessionFromResponse res with
          | .error e => ((none, some e), k + 1)
          | .ok j =>
              if j.Status = APIStatusSuccess then ((some j, none), k + 1)
              else if j.Status = APIStatusFailed then
                ((none, some (submissionFailedMsg j)), k + 1)
              else if j.Status = APIStatusProcessing then
                pollGo get maxAttempts (attempt + 1) (k + 1)
              else
                ((none, some ("unexpected session state \"" ++ j.Status ++ "\" in 200 response")), k + 1)
  else
    ((none, some "polling attempts exhausted, session resource state still not complete"), k)
termination_by maxAttempts - attempt
decreasing_by omega

/-- Embedding of `pollForSubmissionCompletion` on the GET oracle of the
session URI. -/
def pollForSubmissionCompletion (get : Nat → Except String HttpResponse)
    (maxAttempts : Nat) : (Option SubmitSession × Option String) × Nat :=
  pollGo get maxAttempts 1 0

/-- Embedding of `SubmitConfig.Run`.  Returns the (record, error) pair
and the trace of HTTP requests issued, in order.  The DELETE branch
mirrors the source: a DELETE failure is only logged, so both outcomes
of `deleteResource` produce the same result and the same trace
entry. -/
def Run (env : RunEnv) (cfg : SubmitConfig) (endorsement : List Nat) (mediaType : String) :
    (Option SubmitSession × Option String) × List Request :=
  match check cfg with
  | some e => ((none, some e), [])
  | none =>
  match initClient env cfg with
  | .error e => ((none, some e), [])
  | .ok c =>
  match c.postResource endorsement mediaType sessionMediaType cfg.SubmitURI with
  | .error e => ((none, some ("submit request failed: " ++ e)), [Request.post cfg.SubmitURI])
  | .ok res =>
      if res.statusCode ≠ 200 ∧ res.statusCode ≠ 201 then
        ((none, some ("unexpected HTTP response code " ++ toString res.statusCode)),
          [Request.post cfg.SubmitURI])
      else
        match sessionFromResponse res with
        | .error e => ((none, some e), [Request.post cfg.SubmitURI])
        | .ok j =>
            if res.statusCode = 200 then
              if j.Status = APIStatusSuccess then
                ((some j, none), [Request.post cfg.SubmitURI])
              else if j.Status = APIStatusFailed then
                ((none, some (submissionFailedMsg j)), [Request.post cfg.SubmitURI])
              else
                ((none, some ("unexpected session state \"" ++ j.Status ++ "\" in 200 response")),
                  [Request.post cfg.SubmitURI])
            else
              if j.Status ≠ APIStatusProcessing then
                ((none, some ("unexpected session state \"" ++ j.Status ++ "\" in 201 response")),
                  [Request.post cfg.SubmitURI])
              else
                match extractLocation env.resolve res cfg.SubmitURI with
                | .error e =>
                    ((none, some ("cannot determine URI for the session resource: " ++ e)),
                      [Request.post cfg.SubmitURI])
                | .ok sessionURI =>
                    let pr := pollForSubmissionCompletion (c.httpGet sessionURI) env.maxAttempts
                    let delTrace : List Request :=
                      if cfg.DeleteSession then
                        match c.deleteResource sessionURI with
                        | .error _ => [Request.delete sessionURI]
                        | .ok _ => [Request.delete sessionURI]
                      else []
                    (pr.1, Request.post cfg.SubmitURI ::
                      (List.replicate pr.2 (Request.get sessionURI) ++ delTrace))

/-- A GET outcome that keeps the poll loop going: a response that was
sent, has status code 200, and decodes to a record whose status is
`processing`. -/
def isProcessing (g : Except String HttpResponse) : Bool :=
  match g with
  | .error _ => false
  | .ok res =>
      decide (res.statusCode = 200) &&
        (match sessionFromResponse res with
         | .ok j => decide (j.Status = APIStatusProcessing)
         | .error _ => false)

/-- A GET outcome that terminates the poll loop successfully: sent,
status code 200, decodes to a record with status `success`. -/
def getsSuccess (g : Except String HttpResponse) : Bool :=
  match g with
  | .error _ => false
  | .ok res =>
      decide (res.statusCode = 200) &&
        (match sessionFromResponse res with
         | .ok j => decide (j.Status = APIStatusSuccess)
         | .error _ => false)

/-- The record decoded from a GET outcome, when there is one. -/
def sessionOf (g : Except String HttpResponse) : Option SubmitSession :=
  match g with
  | .ok res =>
      match sessionFromResponse res with
      | .ok j => some j
      | .error _ => none
  | .error _ => none

/-- The (record, error) pair the poll loop produces from a GET outcome
that is not a 200/`processing` response (transport failure, bad status
code, undecodable body, or a terminal record status). -/
def pollTerminal (g : Except String HttpResponse) : Option SubmitSession × Option String :=
  match g with
  | .error e => (none, some ("session resource fetch failed: " ++ e))
  | .ok res =>
      if res.statusCode ≠ 200 then
        (none, some ("session resource fetch returned an unexpected status: " ++ res.status))
      else
        match sessionFromResponse res with
        | .error e => (none, some e)
        | .ok j =>
            if j.Status = APIStatusSuccess then (some j, none)
            else if j.Status = APIStatusFailed then (none, some (submissionFailedMsg j))
            else (none, some ("unexpected session state \"" ++ j.Status ++ "\" in 200 response"))

/-- Whether a trace entry is the submit POST. -/
def isPost : Request → Bool
  | .post _ => true
  | _ => false

/-- Concrete fixtures used to instantiate the theorems below. -/
def procResp : HttpResponse :=
  { statusCode := 200, status := "200 OK", contentType := sessionMediaType,
    contentLength := 1,
    body := .object [("status", "processing"), ("expiry", "2030-10-12T07:20:50.52Z")],
    location := none }

def succResp : HttpResponse :=
  { statusCode := 200, status := "200 OK", contentType := sessionMediaType,
    contentLength := 1,
    body := .object [("status", "success"), ("expiry", "2030-10-12T07:20:50.52Z")],
    location := none }

def failResp : HttpResponse :=
  { statusCode := 200, status := "200 OK", contentType := sessionMediaType,
    contentLength := 1,
    body := .object [("status", "failed"), ("expiry", "2030-10-12T07:20:50.52Z"),
                     ("failure-reason", "taking too long")],
    location := none }

def created201Resp : HttpResponse :=
  { statusCode := 201, status := "201 Created", contentType := sessionMediaType,
    contentLength := 1,
    body := .object [("status", "processing"), ("expiry", "2030-10-12T07:20:50.52Z")],
    location := some "http://veraison.example/endorsement-provisioning/v1/session/1234" }

def clientW : Client :=
  { postResource := fun _ _ _ _ => .ok created201Resp
    httpGet := fun _ k => if k = 0 then .ok procResp else .ok succResp
    deleteResource := fun _ => .ok () }

def envW : RunEnv :=
  { maxAttempts := 5
    resolve := fun loc _ => .ok loc
    newClient := fun _ => clientW
    newInsecureTLSClient := fun _ => clientW
    newTLSClient := fun _ _ => .ok clientW }

def cfgW : SubmitConfig :=
  { SubmitURI := "http://veraison.example/endorsement-provisioning/v1/submit"
    Client := some clientW }

def emptyResp : HttpResponse :=
  { statusCode := 200, status := "200 OK", contentType := "application/json",
    contentLength := 0, body := .malformed "unexpected end of JSON input",
    location := none }

def jSucc : SubmitSession :=
  { Status := "success", Expiry := "2030-10-12T07:20:50.52Z", FailureReason := none }

def jProc : SubmitSession :=
  { Status := "processing", Expiry := "2030-10-12T07:20:50.52Z", FailureReason := none }

def clientSyncW : Client :=
  { postResource := fun _ _ _ _ => .ok succResp
    httpGet := fun _ _ => .ok succResp
    deleteResource := fun _ => .ok () }

def noLocResp : HttpResponse :=
  { statusCode := 201, status := "201 Created", contentType := sessionMediaType,
    contentLength := 1,
    body := .object [("status", "processing"), ("expiry", "2030-10-12T07:20:50.52Z")],
    location := none }

def clientNoLocW : Client :=
  { postResource := fun _ _ _ _ => .ok noLocResp
    httpGet := fun _ _ => .ok succResp
    deleteResource := fun _ => .ok () }

def cfgPlainW : SubmitConfig :=
  { SubmitURI := "http://veraison.example/endorsement-provisioning/v1/submit" }

def sessURI : String := "http://veraison.example/endorsement-provisioning/v1/session/1234"

/-! Poll-loop lemmas. -/

/-- Once the attempt counter reaches the budget, the loop reports
exhaustion without issuing a GET. -/
theorem pollGo_stop (get : Nat → Except String HttpResponse) (maxAttempts attempt k : Nat)
    (h : ¬ attempt < maxAttempts) :
    pollGo get maxAttempts attempt k =
      ((none, some "polling attempts exhausted, session resource state still not complete"), k) := by
  rw [pollGo]
  simp [h]

/-- A 200/`processing` response makes the loop iterate once more. -/
theorem pollGo_step (get : Nat → Except String HttpResponse) (maxAttempts attempt k : Nat)
    (h : attempt < maxAttempts) (hp : isProcessing (get k) = true) :
    pollGo get maxAttempts attempt k = pollGo get maxAttempts (attempt + 1) (k + 1) := by
  rw [pollGo]
  rw [dif_pos h]
  cases hg : get k with
  | error e => rw [hg] at hp; simp [isProcessing] at hp
  | ok res =>
      rw [hg] at hp
      simp only [isProcessing] at hp
      cases hd : sessionFromResponse res with
      | error e => rw [hd] at hp; simp at hp
      | ok j =>
          rw [hd] at hp
          simp only [Bool.and_eq_true, decide_eq_true_eq] at hp
          obtain ⟨h200, hstat⟩ := hp
          simp [h200, hd, hstat, APIStatusProcessing, APIStatusSuccess, APIStatusFailed]

/-- Any other response terminates the loop at once, with the pair given
by `pollTerminal`, after exactly this one further GET. -/
theorem pollGo_terminal (get : Nat → Except String HttpResponse) (maxAttempts attempt k : Nat)
    (h : attempt < maxAttempts) (hp : isProcessing (get k) = false) :
    pollGo get maxAttempts attempt k = (pollTerminal (get k), k + 1) := by
  rw [pollGo]
  rw [dif_pos h]
  cases hg : get k with
  | error e => simp [pollTerminal]
  | ok res =>
      rw [hg] at hp
      simp only [isProcessing] at hp
      by_cases h200 : res.statusCode = 200
      · cases hd : sessionFromResponse res with
        | error e => simp [pollTerminal, h200, hd]
        | ok j =>
            rw [hd] at hp
            have hstatp : ¬ j.Status = APIStatusProcessing := by
              intro hq
              simp [h200, hq] at hp
            by_cases hs : j.Status = APIStatusSuccess
            · simp [pollTerminal, h200, hd, hs]
            · by_cases hf : j.Status = APIStatusFailed
              · simp [pollTerminal, h200, hd, hs, hf, hstatp,
                      APIStatusFailed, APIStatusSuccess, APIStatusProcessing]
              · simp [pollTerminal, h200, hd, hs, hf, hstatp]
      · simp [pollTerminal, h200]

/-- The number of GETs the loop issues is bounded by the remaining
iteration budget. -/
theorem pollGo_count_le (get : Nat → Except String HttpResponse) (maxA : Nat) :
    ∀ r attempt k : Nat, maxA - attempt ≤ r →
      (pollGo get maxA attempt k).2 ≤ k + (maxA - attempt) := by
  intro r
  induction r with
  | zero =>
      intro attempt k hr
      have h : ¬ attempt < maxA := by omega
      rw [pollGo_stop get maxA attempt k h]
      exact Nat.le_add_right k (maxA - attempt)
  | succ r ih =>
      intro attempt k hr
      by_cases h : attempt < maxA
      · by_cases hp : isProcessing (get k) = true
        · rw [pollGo_step get maxA attempt k h hp]
          have hle := ih (attempt + 1) (k + 1) (by omega)
          omega
        · rw [pollGo_terminal get maxA attempt k h (by simpa using hp)]
          simp only
          omega
      · rw [pollGo_stop get maxA attempt k h]
        exact Nat.le_add_right k (maxA - attempt)

/-- When every remaining budgeted GET yields a 200/`processing`
response, the loop exhausts the budget and reports a timeout. -/
theorem pollGo_all_processing (get : Nat → Except String HttpResponse) (maxA : Nat) :
    ∀ r attempt k : Nat, maxA - attempt ≤ r →
      (∀ i, k ≤ i → i < k + (maxA - attempt) → isProcessing (get i) = true) →
      pollGo get maxA attempt k =
        ((none, some "polling attempts exhausted, session resource state still not complete"),
          k + (maxA - attempt)) := by
  intro r
  induction r with
  | zero =>
      intro attempt k hr _
      have h : ¬ attempt < maxA := by omega
      rw [pollGo_stop get maxA attempt k h]
      have h0 : maxA - attempt = 0 := by omega
      rw [h0, Nat.add_zero]
  | succ r ih =>
      intro attempt k hr hproc
      by_cases h : attempt < maxA
      · have hpk : isProcessing (get k) = true := hproc k le_rfl (by omega)
        rw [pollGo_step get maxA attempt k h hpk]
        have hrec := ih (attempt + 1) (k + 1) (by omega)
          (fun i h1 h2 => hproc i (by omega) (by omega))
        rw [hrec]
        have : k + 1 + (maxA - (attempt + 1)) = k + (maxA - attempt) := by omega
        rw [this]
      · rw [pollGo_stop get maxA attempt k h]
        have h0 : maxA - attempt = 0 := by omega
        rw [h0, Nat.add_zero]

/-- When the first non-`processing` GET outcome is the n-th one (within
the budget), the loop returns `pollTerminal` of it after exactly n+1
GETs. -/
theorem pollGo_first_terminal (get : Nat → Except String HttpResponse) (maxA : Nat) :
    ∀ r attempt k n : Nat, maxA - attempt ≤ r →
      k ≤ n → n < k + (maxA - attempt) →
      (∀ i, k ≤ i → i < n → isProcessing (get i) = true) →
      isProcessing (get n) = false →
      pollGo get maxA attempt k = (pollTerminal (get n), n + 1) := by
  intro r
  induction r with
  | zero =>
      intro attempt k n hr hkn hn _ _
      omega
  | succ r ih =>
      intro attempt k n hr hkn hn hproc hterm
      have h : attempt < maxA := by omega
      by_cases hek : n = k
      · subst hek
        exact pollGo_terminal get maxA attempt n h hterm
      · have hpk : isProcessing (get k) = true := hproc k le_rfl (by omega)
        rw [pollGo_step get maxA attempt k h hpk]
        exact ih (attempt + 1) (k + 1) n (by omega) (by omega) (by omega)
          (fun i h1 h2 => hproc i (by omega) h2) hterm

/-- Every GET other than the last one the loop issued got a
200/`processing` response: nothing else is ever retried. -/
theorem pollGo_nonfinal (get : Nat → Except String HttpResponse) (maxA : Nat) :
    ∀ r attempt k : Nat, maxA - attempt ≤ r →
      ∀ i, k ≤ i → i + 1 < (pollGo get maxA attempt k).2 →
        isProcessing (get i) = true := by
  intro r
  induction r with
  | zero =>
      intro attempt k hr i hki hlt
      have h : ¬ attempt < maxA := by omega
      rw [pollGo_stop get maxA attempt k h] at hlt
      omega
  | succ r ih =>
      intro attempt k hr i hki hlt
      by_cases h : attempt < maxA
      · by_cases hp : isProcessing (get k) = true
        · rw [pollGo_step get maxA attempt k h hp] at hlt
          by_cases hik : i = k
          · subst hik; exact hp
          · exact ih (attempt + 1) (k + 1) (by omega) i (by omega) hlt
        · rw [pollGo_terminal get maxA attempt k h (by simpa using hp)] at hlt
          simp only at hlt
          omega
      · rw [pollGo_stop get maxA attempt k h] at hlt
        omega

/-- Terminal pairs are consistent: a record is present exactly when the
error is absent, and any returned record has status `success`. -/
theorem pollTerminal_inv (g : Except String HttpResponse) :
    ((pollTerminal g).1.isSome = true ↔ (pollTerminal g).2 = none) ∧
      (∀ j, (pollTerminal g).1 = some j → j.Status = APIStatusSuccess) := by
  cases g with
  | error e => simp [pollTerminal]
  | ok res =>
      by_cases h200 : res.statusCode = 200
      · cases hd : sessionFromResponse res with
        | error e => simp [pollTerminal, h200, hd]
        | ok j =>
            by_cases hs : j.Status = APIStatusSuccess
            · simp [pollTerminal, h200, hd, hs]
            · by_cases hf : j.Status = APIStatusFailed
              · simp [pollTerminal, h200, hd, hs, hf, APIStatusFailed, APIStatusSuccess]
              · simp [pollTerminal, h200, hd, hs, hf]
      · simp [pollTerminal, h200]

/-- The poll loop's (record, error) pair is consistent in the sense of
`pollTerminal_inv`, in every state. -/
theorem pollGo_inv (get : Nat → Except String HttpResponse) (maxA : Nat) :
    ∀ r attempt k : Nat, maxA - attempt ≤ r →
      (((pollGo get maxA attempt k).1.1.isSome = true ↔ (pollGo get maxA attempt k).1.2 = none) ∧
        ∀ j, (pollGo get maxA attempt k).1.1 = some j → j.Status = APIStatusSuccess) := by
  intro r
  induction r with
  | zero =>
      intro attempt k hr
      have h : ¬ attempt < maxA := by omega
      rw [pollGo_stop get maxA attempt k h]
      simp
  | succ r ih =>
      intro attempt k hr
      by_cases h : attempt < maxA
      · by_cases hp : isProcessing (get k) = true
        · rw [pollGo_step get maxA attempt k h hp]
          exact ih (attempt + 1) (k + 1) (by omega)
        · rw [pollGo_terminal get maxA attempt k h (by simpa using hp)]
          exact pollTerminal_inv (get k)
      · rw [pollGo_stop get maxA attempt k h]
        simp

/-- A successful GET outcome is not `processing`, and its terminal pair
is the decoded record with no error. -/
theorem getsSuccess_terminal (g : Except String HttpResponse) (hg : getsSuccess g = true) :
    isProcessing g = false ∧ pollTerminal g = (sessionOf g, none) ∧
      (sessionOf g).isSome = true := by
  cases g with
  | error e => simp [getsSuccess] at hg
  | ok res =>
      simp only [getsSuccess] at hg
      cases hd : sessionFromResponse res with
      | error e => rw [hd] at hg; simp at hg
      | ok j =>
          rw [hd] at hg
          simp only [Bool.and_eq_true, decide_eq_true_eq] at hg
          obtain ⟨h200, hs⟩ := hg
          refine ⟨?_, ?_, ?_⟩
          · simp [isProcessing, hd, hs, h200, APIStatusSuccess, APIStatusProcessing]
          · simp [pollTerminal, sessionOf, h200, hd, hs]
          · simp [sessionOf, hd]

/-- The poll loop's consistency invariant, at the entry point. -/
theorem poll_inv (get : Nat → Except String HttpResponse) (maxA : Nat) :
    (((pollForSubmissionCompletion get maxA).1.1.isSome = true ↔
        (pollForSubmissionCompletion get maxA).1.2 = none) ∧
      ∀ j, (pollForSubmissionCompletion get maxA).1.1 = some j →
        j.Status = APIStatusSuccess) :=
  pollGo_inv get maxA maxA 1 0 (by omega)

/-- Inserting a field under a different key does not change a
last-wins lookup. -/
theorem lookupLast_skip (fs1 fs2 : List (String × String)) (key v k : String)
    (hk : key ≠ k) :
    lookupLast (fs1 ++ (key, v) :: fs2) k = lookupLast (fs1 ++ fs2) k := by
  simp [lookupLast, List.foldl_append, hk]

/-- C1: the poll loop issues at most MaxAttempts - 1 GETs (the counter
starts at 1 and loops while strictly below MaxAttempts); if the first
MaxAttempts - 1 GET responses all carry status `processing` it returns
the poll-timeout error and no record; if the first non-`processing`
response (within the budget) carries status `success` it returns that
record with no error. -/
theorem claim1_poll_budget (get : Nat → Except String HttpResponse) (maxA : Nat) :
    (pollForSubmissionCompletion get maxA).2 ≤ maxA - 1 ∧
    ((∀ i, i < maxA - 1 → isProcessing (get i) = true) →
      pollForSubmissionCompletion get maxA =
        ((none, some "polling attempts exhausted, session resource state still not complete"),
          maxA - 1)) ∧
    (∀ n, n < maxA - 1 → (∀ i, i < n → isProcessing (get i) = true) →
      getsSuccess (get n) = true →
      pollForSubmissionCompletion get maxA = ((sessionOf (get n), none), n + 1) ∧
        (sessionOf (get n)).isSome = true) := by
  refine ⟨?_, ?_, ?_⟩
  · have h := pollGo_count_le get maxA maxA 1 0 (by omega)
    simpa [pollForSubmissionCompletion] using h
  · intro hall
    have h := pollGo_all_processing get maxA maxA 1 0 (by omega)
      (fun i _ h2 => hall i (by omega))
    simpa [pollForSubmissionCompletion] using h
  · intro n hn hpre hsucc
    obtain ⟨hnp, hterm, hsome⟩ := getsSuccess_terminal (get n) hsucc
    have h := pollGo_first_terminal get maxA maxA 1 0 n (by omega) (by omega) (by omega)
      (fun i _ h2 => hpre i h2) hnp
    rw [pollForSubmissionCompletion, h, hterm]
    exact ⟨rfl, hsome⟩

/-- C1 witness: with a budget of 3 and every poll answering
`processing`, the loop stops after 2 GETs with the timeout error. -/
theorem claim1_poll_budget_witness :
    pollForSubmissionCompletion (fun _ => Except.ok procResp) 3 =
      ((none, some "polling attempts exhausted, session resource state still not complete"),
        2) :=
  (claim1_poll_budget (fun _ => Except.ok procResp) 3).2.1 (fun i _ => by decide)

/-- C3: the session resource decoder rejects an empty body regardless
of status code or content type, rejects a Content-Type other than the
session media type even for a well-formed body, wraps JSON parse
errors, and decodes well-formed objects while ignoring unknown
fields. -/
theorem claim3_decoder_contract (res : HttpResponse) :
    (res.contentLength = 0 → sessionFromResponse res = .error "empty body") ∧
    (res.contentLength ≠ 0 → res.contentType ≠ sessionMediaType →
      sessionFromResponse res =
        .error ("session resource with unexpected content type: \"" ++ res.contentType ++ "\"")) ∧
    (res.contentLength ≠ 0 → res.contentType = sessionMediaType →
      (∀ e, res.body = .malformed e →
        sessionFromResponse res = .error ("failure decoding session resource: " ++ e)) ∧
      (∀ fields, res.body = .object fields →
        sessionFromResponse res = .ok
          { Status := (lookupLast fields "status").getD ""
            Expiry := (lookupLast fields "expiry").getD ""
            FailureReason := lookupLast fields "failure-reason" })) ∧
    (∀ fs1 fs2 key v, key ≠ "status" → key ≠ "expiry" → key ≠ "failure-reason" →
      decodeJSONBody (.object (fs1 ++ (key, v) :: fs2)) =
        decodeJSONBody (.object (fs1 ++ fs2))) := by
  refine ⟨?_, ?_, ?_, ?_⟩
  · intro h0
    simp [sessionFromResponse, h0]
  · intro h0 hct
    simp [sessionFromResponse, h0, hct]
  · intro h0 hct
    constructor
    · intro e hb
      simp [sessionFromResponse, h0, hct, hb, decodeJSONBody]
    · intro fields hb
      simp [sessionFromResponse, h0, hct, hb, decodeJSONBody]
  · intro fs1 fs2 key v h1 h2 h3
    simp only [decodeJSONBody]
    rw [lookupLast_skip fs1 fs2 key v "status" h1,
        lookupLast_skip fs1 fs2 key v "expiry" h2,
        lookupLast_skip fs1 fs2 key v "failure-reason" h3]

/-- C3 witness: a response with an empty body is rejected with the
"empty body" error even though its content type is not the session
media type. -/
theorem claim3_decoder_contract_witness :
    sessionFromResponse emptyResp = .error "empty body" :=
  (claim3_decoder_contract emptyResp).1 rfl

/-- C7: SetSubmitURI fails on a malformed or non-absolute URI leaving
the configuration untouched, and on an absolute URI stores it and sets
the TLS flag exactly when the scheme is https. -/
theorem claim7_SetSubmitURI (parse : String → Except String URL) (cfg : SubmitConfig)
    (uri : String) :
    (∀ e, parse uri = .error e →
      SetSubmitURI parse cfg uri = (cfg, some ("malformed URI: " ++ e))) ∧
    (∀ u, parse uri = .ok u → u.isAbs = false →
      SetSubmitURI parse cfg uri = (cfg, some "uri is not absolute")) ∧
    (∀ u, parse uri = .ok u → u.isAbs = true →
      SetSubmitURI parse cfg uri =
        ({ cfg with UseTLS := u.scheme == "https", SubmitURI := uri }, none) ∧
      ((u.scheme == "https" : Bool) = true ↔ u.scheme = "https")) := by
  refine ⟨?_, ?_, ?_⟩
  · intro e he
    simp [SetSubmitURI, he]
  · intro u hu habs
    simp [SetSubmitURI, hu, habs]
  · intro u hu habs
    refine ⟨by simp [SetSubmitURI, hu, habs], ?_⟩
    simp

/-- C7 witness: parsing to an absolute https URL stores the URI and
enables TLS. -/
theorem claim7_SetSubmitURI_witness :
    SetSubmitURI (fun s => Except.ok { scheme := "https", rest := s }) {} "https://h/x" =
      ({ UseTLS := true, SubmitURI := "https://h/x" }, none) :=
  ((claim7_SetSubmitURI (fun s => Except.ok { scheme := "https", rest := s }) {}
    "https://h/x").2.2 { scheme := "https", rest := "https://h/x" } rfl rfl).1

/-- C8: with an empty submit URI, Run fails with the configuration
error, issues no HTTP request at all (empty trace), and does so
identically for every environment — in particular before any transport
is initialized. -/
theorem claim8_empty_uri (env : RunEnv) (cfg : SubmitConfig) (endorsement : List Nat)
    (mediaType : String) (h : cfg.SubmitURI = "") :
    Run env cfg endorsement mediaType =
      ((none, some "bad configuration: no API endpoint"), []) := by
  unfold Run
  simp [check, h]

/-- C8 witness: the default (empty) configuration fails this way. -/
theorem claim8_empty_uri_witness :
    Run envW {} [] "application/corim+cbor" =
      ((none, some "bad configuration: no API endpoint"), []) :=
  claim8_empty_uri envW {} [] "application/corim+cbor" rfl

/-- A configured client is reused unchanged. -/
theorem initClient_of_some (env : RunEnv) (cfg : SubmitConfig) (c : Client)
    (hcl : cfg.Client = some c) : initClient env cfg = .ok c := by
  simp [initClient, hcl]

/-- Run consults its configuration only through `check`, `initClient`,
the submit URI and the delete flag; two configurations agreeing there
produce identical outcomes. -/
theorem Run_config_congr (env : RunEnv) (cfg cfg' : SubmitConfig)
    (endorsement : List Nat) (mediaType : String)
    (hcheck : check cfg' = check cfg) (hinit : initClient env cfg' = initClient env cfg)
    (huri : cfg'.SubmitURI = cfg.SubmitURI) (hdel : cfg'.DeleteSession = cfg.DeleteSession) :
    Run env cfg' endorsement mediaType = Run env cfg endorsement mediaType := by
  unfold Run
  rw [hcheck, hinit, huri, hdel]

/-- C2: on a 200 submit response whose body decodes, Run branches three
ways on the record status: `success` returns the record with no error;
`failed` returns the submission-failed error, whose message carries the
failure reason exactly when one is present; any other status returns
the protocol error naming that status. -/
theorem claim2_sync_branches (env : RunEnv) (cfg : SubmitConfig) (endorsement : List Nat)
    (mediaType : String) (c : Client) (res : HttpResponse) (j : SubmitSession)
    (hcheck : check cfg = none)
    (hinit : initClient env cfg = .ok c)
    (hpost : c.postResource endorsement mediaType sessionMediaType cfg.SubmitURI = .ok res)
    (h200 : res.statusCode = 200)
    (hdec : sessionFromResponse res = .ok j) :
    (j.Status = APIStatusSuccess →
      Run env cfg endorsement mediaType = ((some j, none), [Request.post cfg.SubmitURI])) ∧
    (j.Status = APIStatusFailed →
      Run env cfg endorsement mediaType =
        ((none, some (submissionFailedMsg j)), [Request.post cfg.SubmitURI]) ∧
      (∀ r, j.FailureReason = some r → submissionFailedMsg j = "submission failed: " ++ r) ∧
      (j.FailureReason = none → submissionFailedMsg j = "submission failed")) ∧
    (j.Status ≠ APIStatusSuccess → j.Status ≠ APIStatusFailed →
      Run env cfg endorsement mediaType =
        ((none, some ("unexpected session state \"" ++ j.Status ++ "\" in 200 response")),
          [Request.post cfg.SubmitURI])) := by
  refine ⟨?_, ?_, ?_⟩
  · intro hs
    unfold Run
    rw [hcheck, hinit]
    simp only [hpost, h200, hdec, hs]
    simp
  · intro hs
    refine ⟨?_, ?_, ?_⟩
    · unfold Run
      rw [hcheck, hinit]
      simp only [hpost, h200, hdec, hs]
      simp [APIStatusFailed, APIStatusSuccess]
    · intro r hr
      simp [submissionFailedMsg, hr]
    · intro hr
      simp [submissionFailedMsg, hr]
  · intro hs hf
    unfold Run
    rw [hcheck, hinit]
    simp only [hpost, h200, hdec]
    simp [hs, hf]

/-- C2 witness: a synchronous 200/`success` response yields the record
and no error. -/
theorem claim2_sync_branches_witness :
    Run envW { cfgW with Client := some clientSyncW } [] "application/corim+cbor" =
      ((some jSucc, none), [Request.post cfgW.SubmitURI]) :=
  (claim2_sync_branches envW { cfgW with Client := some clientSyncW } []
    "application/corim+cbor" clientSyncW succResp jSucc rfl rfl rfl rfl rfl).1 rfl

/-- C5: on a 201 submit response whose body decodes, a status other
than `processing` yields the protocol error naming it and no GET is
ever issued; with status `processing` but a missing or unresolvable
Location, Run fails with the protocol error and no GET is issued;
polling runs only when both the status is `processing` and a follow-up
URI was extracted. -/
theorem claim5_async_protocol (env : RunEnv) (cfg : SubmitConfig) (endorsement : List Nat)
    (mediaType : String) (c : Client) (res : HttpResponse) (j : SubmitSession)
    (hcheck : check cfg = none)
    (hinit : initClient env cfg = .ok c)
    (hpost : c.postResource endorsement mediaType sessionMediaType cfg.SubmitURI = .ok res)
    (h201 : res.statusCode = 201)
    (hdec : sessionFromResponse res = .ok j) :
    (j.Status ≠ APIStatusProcessing →
      Run env cfg endorsement mediaType =
        ((none, some ("unexpected session state \"" ++ j.Status ++ "\" in 201 response")),
          [Request.post cfg.SubmitURI])) ∧
    (res.location = none →
      extractLocation env.resolve res cfg.SubmitURI =
        .error "no Location header found in response") ∧
    (j.Status = APIStatusProcessing →
      ∀ e, extractLocation env.resolve res cfg.SubmitURI = .error e →
        Run env cfg endorsement mediaType =
          ((none, some ("cannot determine URI for the session resource: " ++ e)),
            [Request.post cfg.SubmitURI])) ∧
    (j.Status = APIStatusProcessing →
      ∀ uri, extractLocation env.resolve res cfg.SubmitURI = .ok uri →
        (Run env cfg endorsement mediaType).1 =
          (pollForSubmissionCompletion (c.httpGet uri) env.maxAttempts).1) := by
  refine ⟨?_, ?_, ?_, ?_⟩
  · intro hs
    unfold Run
    rw [hcheck, hinit]
    simp only [hpost, h201, hdec]
    simp [hs, h201]
  · intro hloc
    simp [extractLocation, hloc]
  · intro hs e hloc
    unfold Run
    rw [hcheck, hinit]
    simp only [hpost, h201, hdec, hs, hloc]
    simp [APIStatusProcessing]
  · intro hs uri hloc
    unfold Run
    rw [hcheck, hinit]
    simp only [hpost, h201, hdec, hs, hloc]
    simp [APIStatusProcessing]

/-- C5 witness: a 201/`processing` response with no Location header
fails with the protocol error, without polling. -/
theorem claim5_async_protocol_witness :
    Run envW { cfgW with Client := some clientNoLocW } [] "application/corim+cbor" =
      ((none, some "cannot determine URI for the session resource: no Location header found in response"),
        [Request.post cfgW.SubmitURI]) :=
  (claim5_async_protocol envW { cfgW with Client := some clientNoLocW } []
      "application/corim+cbor" clientNoLocW noLocResp jProc rfl rfl rfl rfl rfl).2.2.1
    rfl "no Location header found in response" rfl

/-- C9: across every branch of Run, the returned record and error are
mutually exclusive, and a returned record always has status
`success`. -/
theorem claim9_record_error_exclusive (env : RunEnv) (cfg : SubmitConfig)
    (endorsement : List Nat) (mediaType : String) :
    ((Run env cfg endorsement mediaType).1.1.isSome = true ↔
      (Run env cfg endorsement mediaType).1.2 = none) ∧
    (∀ j, (Run env cfg endorsement mediaType).1.1 = some j →
      j.Status = APIStatusSuccess) := by
  unfold Run
  cases hcheck : check cfg with
  | some e => simp
  | none =>
  cases hinit : initClient env cfg with
  | error e => simp
  | ok c =>
  cases hpost : c.postResource endorsement mediaType sessionMediaType cfg.SubmitURI with
  | error e => simp [hpost]
  | ok res =>
  by_cases hcode : res.statusCode ≠ 200 ∧ res.statusCode ≠ 201
  · simp [hpost, hcode]
  · cases hdec : sessionFromResponse res with
    | error e => simp [hpost, hcode, hdec]
    | ok j =>
        by_cases h200 : res.statusCode = 200
        · by_cases hs : j.Status = APIStatusSuccess
          · simp [hpost, hcode, hdec, h200, hs]
          · by_cases hf : j.Status = APIStatusFailed
            · simp [hpost, hcode, hdec, h200, hs, hf, APIStatusFailed, APIStatusSuccess]
            · simp [hpost, hcode, hdec, h200, hs, hf]
        · have h201 : res.statusCode = 201 := by omega
          by_cases hp : j.Status = APIStatusProcessing
          · cases hloc : extractLocation env.resolve res cfg.SubmitURI with
            | error e => simp [hpost, hcode, hdec, h200, h201, hp, hloc]
            | ok uri =>
                have hinv := poll_inv (c.httpGet uri) env.maxAttempts
                simpa [hpost, hcode, hdec, h200, h201, hp, hloc] using hinv
          · simp [hpost, hcode, hdec, h200, h201, hp]

/-- C9 witness: instantiated mutual exclusivity on the concrete
async-success scenario. -/
theorem claim9_record_error_exclusive_witness :
    ((Run envW cfgW [] "application/corim+cbor").1.1.isSome = true ↔
      (Run envW cfgW [] "application/corim+cbor").1.2 = none) :=
  (claim9_record_error_exclusive envW cfgW [] "application/corim+cbor").1

/-- C10: with no stored client, a Run call behaves exactly as if the
client freshly built by its own environment's constructor (chosen by
the TLS flags) had been stored; the caller's configuration is a value
that still has no client, so each later call again builds a fresh
client from its own environment. -/
theorem claim10_fresh_client (env : RunEnv) (cfg : SubmitConfig) (endorsement : List Nat)
    (mediaType : String) (hcl : cfg.Client = none) :
    (cfg.UseTLS = false →
      Run env cfg endorsement mediaType =
        Run env { cfg with Client := some (env.newClient cfg.Auth) } endorsement mediaType) ∧
    (cfg.UseTLS = true → cfg.IsInsecure = true →
      Run env cfg endorsement mediaType =
        Run env { cfg with Client := some (env.newInsecureTLSClient cfg.Auth) }
          endorsement mediaType) ∧
    (cfg.UseTLS = true → cfg.IsInsecure = false →
      ∀ c, env.newTLSClient cfg.Auth cfg.CACerts = .ok c →
        Run env cfg endorsement mediaType =
          Run env { cfg with Client := some c } endorsement mediaType) := by
  refine ⟨?_, ?_, ?_⟩
  · intro hT
    refine (Run_config_congr env cfg { cfg with Client := some (env.newClient cfg.Auth) }
      endorsement mediaType ?_ ?_ rfl rfl).symm
    · simp [check]
    · simp [initClient, hcl, hT]
  · intro hT hI
    refine (Run_config_congr env cfg
      { cfg with Client := some (env.newInsecureTLSClient cfg.Auth) }
      endorsement mediaType ?_ ?_ rfl rfl).symm
    · simp [check]
    · simp [initClient, hcl, hT, hI]
  · intro hT hI c hok
    refine (Run_config_congr env cfg { cfg with Client := some c }
      endorsement mediaType ?_ ?_ rfl rfl).symm
    · simp [check]
    · simp [initClient, hcl, hT, hI, hok]

/-- C10 witness: a plain-HTTP configuration with no stored client runs
exactly as if the environment's fresh client were stored. -/
theorem claim10_fresh_client_witness :
    Run envW cfgPlainW [] "application/corim+cbor" =
      Run envW { cfgPlainW with Client := some (envW.newClient cfgPlainW.Auth) } []
        "application/corim+cbor" :=
  (claim10_fresh_client envW cfgPlainW [] "application/corim+cbor" rfl).1 rfl

/-- C4: once Run reaches polling, with the delete flag set the trace
ends with exactly one DELETE of the follow-up URI after the poll's
GETs whatever the poll's outcome, with the flag unset there is no
DELETE, and replacing the client's DELETE behaviour changes nothing
about Run's result or trace. -/
theorem claim4_delete_once (env : RunEnv) (cfg : SubmitConfig) (endorsement : List Nat)
    (mediaType : String) (c : Client) (res : HttpResponse) (j : SubmitSession) (uri : String)
    (hcl : cfg.Client = some c)
    (hcheck : check cfg = none)
    (hpost : c.postResource endorsement mediaType sessionMediaType cfg.SubmitURI = .ok res)
    (h201 : res.statusCode = 201)
    (hdec : sessionFromResponse res = .ok j)
    (hs : j.Status = APIStatusProcessing)
    (hloc : extractLocation env.resolve res cfg.SubmitURI = .ok uri) :
    (cfg.DeleteSession = true →
      Run env cfg endorsement mediaType =
        ((pollForSubmissionCompletion (c.httpGet uri) env.maxAttempts).1,
          Request.post cfg.SubmitURI ::
            (List.replicate (pollForSubmissionCompletion (c.httpGet uri) env.maxAttempts).2
              (Request.get uri) ++ [Request.delete uri]))) ∧
    (cfg.DeleteSession = false →
      Run env cfg endorsement mediaType =
        ((pollForSubmissionCompletion (c.httpGet uri) env.maxAttempts).1,
          Request.post cfg.SubmitURI ::
            List.replicate (pollForSubmissionCompletion (c.httpGet uri) env.maxAttempts).2
              (Request.get uri))) ∧
    (∀ d, Run env { cfg with Client := some { c with deleteResource := d } }
        endorsement mediaType =
      Run env cfg endorsement mediaType) := by
  refine ⟨?_, ?_, ?_⟩
  · intro hds
    unfold Run
    rw [hcheck, initClient_of_some env cfg c hcl]
    simp only [hpost, h201, hdec, hs, hloc, hds]
    cases c.deleteResource uri <;> simp [APIStatusProcessing]
  · intro hds
    unfold Run
    rw [hcheck, initClient_of_some env cfg c hcl]
    simp only [hpost, h201, hdec, hs, hloc, hds]
    simp [APIStatusProcessing]
  · intro d
    unfold Run
    rw [show check { cfg with Client := some { c with deleteResource := d } } = none from by
          simpa [check] using hcheck,
        hcheck,
        initClient_of_some env _ { c with deleteResource := d } rfl,
        initClient_of_some env cfg c hcl]
    simp only [hpost, h201, hdec, hs, hloc]
    cases d uri <;> cases c.deleteResource uri <;> simp [APIStatusProcessing]

/-- C4 witness: the async-success scenario with deletion enabled ends
with exactly one DELETE after the poll's GETs. -/
theorem claim4_delete_once_witness :
    Run envW { cfgW with DeleteSession := true } [] "application/corim+cbor" =
      ((pollForSubmissionCompletion (clientW.httpGet sessURI) envW.maxAttempts).1,
        Request.post cfgW.SubmitURI ::
          (List.replicate
            (pollForSubmissionCompletion (clientW.httpGet sessURI) envW.maxAttempts).2
            (Request.get sessURI) ++ [Request.delete sessURI])) :=
  (claim4_delete_once envW { cfgW with DeleteSession := true } [] "application/corim+cbor"
    clientW created201Resp jProc sessURI rfl rfl rfl rfl rfl rfl rfl).1 rfl

/-- Polling GETs never count as the submit POST. -/
theorem filter_isPost_replicate (m : Nat) (uri : String) :
    (List.replicate m (Request.get uri)).filter isPost = [] := by
  induction m with
  | zero => rfl
  | succ m ih => simp [List.replicate_succ, List.filter_cons, isPost, ih]

/-- Every Run trace contains at most one POST. -/
theorem run_posts_le (env : RunEnv) (cfg : SubmitConfig) (endorsement : List Nat)
    (mediaType : String) :
    ((Run env cfg endorsement mediaType).2.filter isPost).length ≤ 1 := by
  unfold Run
  cases hcheck : check cfg with
  | some e => simp [hcheck]
  | none =>
  cases hinit : initClient env cfg with
  | error e => simp [hcheck, hinit]
  | ok c =>
  cases hpost : c.postResource endorsement mediaType sessionMediaType cfg.SubmitURI with
  | error e => simp [hcheck, hinit, hpost, isPost]
  | ok res =>
  by_cases hcode : res.statusCode ≠ 200 ∧ res.statusCode ≠ 201
  · simp [hcheck, hinit, hpost, hcode, isPost]
  · cases hdec : sessionFromResponse res with
    | error e => simp [hcheck, hinit, hpost, hcode, hdec, isPost]
    | ok j =>
        by_cases h200 : res.statusCode = 200
        · by_cases hs : j.Status = APIStatusSuccess
          · simp [hcheck, hinit, hpost, hcode, hdec, h200, hs, isPost]
          · by_cases hf : j.Status = APIStatusFailed
            · simp [hcheck, hinit, hpost, hcode, hdec, h200, hs, hf, isPost,
                    APIStatusFailed, APIStatusSuccess]
            · simp [hcheck, hinit, hpost, hcode, hdec, h200, hs, hf, isPost]
        · have h201 : res.statusCode = 201 := by omega
          by_cases hp : j.Status = APIStatusProcessing
          · cases hloc : extractLocation env.resolve res cfg.SubmitURI with
            | error e => simp [hcheck, hinit, hpost, hcode, hdec, h200, h201, hp, hloc, isPost]
            | ok uri =>
                by_cases hds : cfg.DeleteSession = true
                · cases hdr : c.deleteResource uri <;>
                    simp [hcheck, hinit, hpost, hcode, hdec, h200, h201, hp, hloc, hds, hdr,
                          isPost, List.filter_append, filter_isPost_replicate,
                          List.filter_cons]
                · simp [hcheck, hinit, hpost, hcode, hdec, h200, h201, hp, hloc, hds,
                        isPost, List.filter_append, filter_isPost_replicate,
                        List.filter_cons]
          · simp [hcheck, hinit, hpost, hcode, hdec, h200, h201, hp, isPost]

/-- C6: only a 200/`processing` response causes another poll
iteration; a transport failure, a non-200 status or an undecodable
body each end the poll immediately with the corresponding error after
that GET, retried never; and the submit POST is issued at most
once. -/
theorem claim6_no_retry (get : Nat → Except String HttpResponse) (maxA : Nat) :
    (∀ i, i + 1 < (pollForSubmissionCompletion get maxA).2 →
      isProcessing (get i) = true) ∧
    (∀ n, n < maxA - 1 → (∀ i, i < n → isProcessing (get i) = true) →
      (∀ e, get n = .error e →
        pollForSubmissionCompletion get maxA =
          ((none, some ("session resource fetch failed: " ++ e)), n + 1)) ∧
      (∀ res, get n = .ok res → res.statusCode ≠ 200 →
        pollForSubmissionCompletion get maxA =
          ((none, some ("session resource fetch returned an unexpected status: " ++ res.status)),
            n + 1)) ∧
      (∀ res e, get n = .ok res → res.statusCode = 200 → sessionFromResponse res = .error e →
        pollForSubmissionCompletion get maxA = ((none, some e), n + 1))) ∧
    (∀ env cfg endorsement mediaType,
      ((Run env cfg endorsement mediaType).2.filter isPost).length ≤ 1) := by
  refine ⟨?_, ?_, ?_⟩
  · intro i hi
    exact pollGo_nonfinal get maxA maxA 1 0 (by omega) i (Nat.zero_le i) hi
  · intro n hn hpre
    refine ⟨?_, ?_, ?_⟩
    · intro e he
      have hterm : isProcessing (get n) = false := by simp [isProcessing, he]
      have h := pollGo_first_terminal get maxA maxA 1 0 n (by omega) (by omega) (by omega)
        (fun i _ h2 => hpre i h2) hterm
      rw [pollForSubmissionCompletion, h]
      simp [pollTerminal, he]
    · intro res hres hcode
      have hterm : isProcessing (get n) = false := by simp [isProcessing, hres, hcode]
      have h := pollGo_first_terminal get maxA maxA 1 0 n (by omega) (by omega) (by omega)
        (fun i _ h2 => hpre i h2) hterm
      rw [pollForSubmissionCompletion, h]
      simp [pollTerminal, hres, hcode]
    · intro res e hres hcode hdec
      have hterm : isProcessing (get n) = false := by simp [isProcessing, hres, hcode, hdec]
      have h := pollGo_first_terminal get maxA maxA 1 0 n (by omega) (by omega) (by omega)
        (fun i _ h2 => hpre i h2) hterm
      rw [pollForSubmissionCompletion, h]
      simp [pollTerminal, hres, hcode, hdec]
  · exact fun env cfg endorsement mediaType => run_posts_le env cfg endorsement mediaType

/-- C6 witness: a transport failure on the very first poll GET ends
the poll at once with the fetch error, after exactly one GET. -/
theorem claim6_no_retry_witness :
    pollForSubmissionCompletion (fun _ => Except.error "connection refused") 5 =
      ((none, some "session resource fetch failed: connection refused"), 1) :=
  ((claim6_no_retry (fun _ => Except.error "connection refused") 5).2.1 0 (by decide)
    (fun i hi => absurd hi (Nat.not_lt_zero i))).1 "connection refused" rfl

end Provisioning
